import Mathlib

/-!
Shallow embedding of the `testing-with-gomock` repository: the `Doer`
capability interface (`doer/doer.go`), its concrete implementation
`doerImpl`, the `User` consumer (`user/user.go`), the entry point
(`main.go`), and the custom `ofType` gomock matcher (package `match`).

Go conventions used throughout the embedding:
- a Go `error` value is `Option String`: `none` is the nil error
  (success), `some msg` is a non-nil error carrying message `msg`;
- a capability whose methods may perform effects is embedded as a
  world-passing function over an abstract world type `σ`; the concrete
  implementation instantiates `σ` with the list of lines printed so far;
- `strconv.Itoa n` and the `%d` verb both produce the decimal string of
  the integer, which is `toString (n : Int)` here.
-/

/-- A Go `error` result: `none` is the nil error (success). -/
abbrev GoError := Option String

/-- The `Doer` interface of `doer/doer.go`: one method
`DoSomething(int, string) error`, embedded over an abstract effect world
`σ` (the method may perform effects, e.g. print). -/
def Doer (σ : Type) := Int → String → σ → GoError × σ

/-- Lines printed to standard output, in order. -/
abbrev Output := List String

/-- The empty struct `doerImpl` of `doer/doer.go`. -/
structure doerImpl

/-- `NewDoer()` of `doer/doer.go`: returns a fresh `doerImpl`. -/
def NewDoer : doerImpl := doerImpl.mk

/-- `(*doerImpl).DoSomething` of `doer/doer.go`: prints the diagnostic
line, then returns nil iff `strconv.Itoa n == str`, otherwise the error
`fmt.Errorf("error: %s != %d", str, n)`. -/
def doerImpl.DoSomething (_d : doerImpl) : Doer Output := fun n str out =>
  ( (if toString n == str then none
     else some ("error: " ++ str ++ " != " ++ toString n)),
    out ++ ["DoSomething " ++ str ++ " " ++ toString n ++ " times"] )

/-- The `User` struct of `user/user.go`: holds one field, a `Doer`. -/
structure User (σ : Type) where
  Doer : Doer σ

/-- `(*User).Use` of `user/user.go`: returns
`u.Doer.DoSomething(123, "Hello GoMock")`. -/
def User.Use {σ : Type} (u : User σ) : σ → GoError × σ :=
  u.Doer 123 "Hello GoMock"

/-- `NewUser` of `user/user.go`: wraps the given capability in a `User`. -/
def NewUser {σ : Type} (d : Doer σ) : User σ := ⟨d⟩

/-- The body of `main` of `main.go`, abstracted over the capability that
gets wired into the consumer: prints `start`, constructs the consumer,
calls `Use()`, prints the error iff it is non-nil, prints `end`, and the
process exits with status 0 (Go `main` returning normally). The pair is
(printed lines, exit status). -/
def mainWith (d : Doer Output) : Output × Nat :=
  let u := NewUser d
  let r := u.Use ["start"]
  let afterErr : Output :=
    match r.1 with
    | some msg => r.2 ++ [msg]
    | none => r.2
  (afterErr ++ ["end"], 0)

/-- `main` of `main.go`: the entry point wired with the real capability
`NewDoer()`. -/
def mainRun : Output × Nat := mainWith NewDoer.DoSomething

/-- A call record: the arguments a capability invocation received. -/
abbrev CallLog := List (Int × String)

/-- Instruments a pure capability behavior `d` as a `Doer` whose world is
the log of calls it has received: each invocation appends its arguments. -/
def recording (d : Int → String → GoError) : Doer CallLog :=
  fun n s log => (d n s, log ++ [(n, s)])

/-! ### The custom `ofType` matcher (package `match`)

Go interface values and `reflect.TypeOf` are embedded explicitly: an
interface value is either the nil interface or carries a dynamic type,
identified by the string `reflect.Type.String()` would print for it. A
method call on a nil `reflect.Type` panics, so `Matches` returns
`Option Bool`, with `none` standing for the panic. -/

/-- A Go interface value: the nil interface, or a value of some dynamic
type (identified by its `reflect` string form) with some underlying
data. -/
inductive GoValue where
  | nil : GoValue
  | val (typeName : String) (data : String) : GoValue

/-- `reflect.TypeOf`: the dynamic type of an interface value, `none` for
the nil interface (Go returns a nil `reflect.Type`). -/
def reflectTypeOf : GoValue → Option String
  | GoValue.nil => none
  | GoValue.val t _ => some t

/-- The `ofType` struct of the `match` package: holds the expected type
name. -/
structure ofType where
  t : String

/-- `NewOfType` of the `match` package. -/
def NewOfType (t : String) : ofType := ⟨t⟩

/-- `(*ofType).Matches`: `reflect.TypeOf(x).String() == o.t`. Calling
`.String()` on the nil `reflect.Type` obtained from a nil interface
panics, modelled as `none`. -/
def ofType.Matches (o : ofType) (x : GoValue) : Option Bool :=
  match reflectTypeOf x with
  | none => none
  | some t => some (t == o.t)

/-- `(*ofType).String`: `"is of type " + o.t`. -/
def ofType.String (o : ofType) : String := "is of type " ++ o.t

/-! ### The test substitute's matching policy

Modelled from the spec: the generated mock (`mocks/mock_doer.go`) and the
gomock controller that implement the test substitute are not under the
repository's sources; this models the matching policy of spec §4.3. An
expectation carries one matcher per positional argument (exact-equality
by default, or predicate-style), an exhaustion flag and an
order-eligibility flag; an incoming call selects the first declared,
not-yet-exhausted, order-eligible expectation all of whose matchers
succeed, and with no match the substitute fails the test with a message
naming the call and its arguments. -/

/-- Modelled from the spec: a matcher for one positional argument —
exact equality by default, or an explicit predicate-style matcher. -/
inductive ArgMatcher (α : Type) where
  | exact (v : α) : ArgMatcher α
  | pred (p : α → Bool) : ArgMatcher α

/-- Whether an actual argument satisfies a matcher. -/
def ArgMatcher.match1 {α : Type} [BEq α] : ArgMatcher α → α → Bool
  | ArgMatcher.exact v, x => x == v
  | ArgMatcher.pred p, x => p x

/-- Modelled from the spec: a declared expectation — one matcher per
positional argument, whether its call budget is exhausted, and whether
its ordering prerequisites are satisfied (order-eligible). -/
structure Expectation (α : Type) where
  matchers : List (ArgMatcher α)
  exhausted : Bool
  orderEligible : Bool

/-- An expectation matches a call when it has one matcher per positional
argument and every matcher succeeds on its argument. -/
def Expectation.matchesArgs {α : Type} [BEq α] (e : Expectation α)
    (args : List α) : Bool :=
  e.matchers.length == args.length &&
    (List.zip e.matchers args).all fun ma => ma.1.match1 ma.2

/-- An expectation is selectable for a call when it is not yet exhausted,
order-eligible, and matches the call's arguments. -/
def Expectation.candidate {α : Type} [BEq α] (e : Expectation α)
    (args : List α) : Bool :=
  !e.exhausted && e.orderEligible && e.matchesArgs args

/-- The index of the first declared, not-yet-exhausted, order-eligible
expectation whose matchers all succeed on the call's arguments. -/
def selectExpectation {α : Type} [BEq α] :
    List (Expectation α) → List α → Option Nat
  | [], _ => none
  | e :: es, args =>
    if e.candidate args then some 0
    else (selectExpectation es args).map fun i => i + 1

/-- The test-failure message for an unmatched call: names the called
method and its arguments. -/
def unexpectedCallMsg {α : Type} [ToString α] (method : String)
    (args : List α) : String :=
  "unexpected call to " ++ method ++ " with arguments " ++ toString args

/-- Dispatching an incoming call against the declared expectations: the
selected expectation's index, or an immediate test failure naming the
call and its arguments when no expectation matches. -/
def handleCall {α : Type} [BEq α] [ToString α] (method : String)
    (exps : List (Expectation α)) (args : List α) : Except String Nat :=
  match selectExpectation exps args with
  | some i => Except.ok i
  | none => Except.error (unexpectedCallMsg method args)

/-- A concrete pair of expectations over `Nat` arguments, used to
exercise the matching policy at a concrete call. -/
def expsW : List (Expectation Nat) :=
  [⟨[ArgMatcher.exact 1], false, true⟩, ⟨[ArgMatcher.exact 2], false, true⟩]

/-! ## Lemmas about expectation selection -/

lemma selectExpectation_some {α : Type} [BEq α]
    (exps : List (Expectation α)) (args : List α) (i : Nat)
    (h : selectExpectation exps args = some i) :
    ∃ e, exps[i]? = some e ∧ e.candidate args = true ∧
      ∀ j e', j < i → exps[j]? = some e' → e'.candidate args = false := by
  induction exps generalizing i with
  | nil => simp [selectExpectation] at h
  | cons e es ih =>
    by_cases hc : e.candidate args = true
    · simp [selectExpectation, hc] at h
      subst h
      exact ⟨e, by simp, hc, fun j e' hj _ => absurd hj (Nat.not_lt_zero j)⟩
    · simp [selectExpectation, hc] at h
      obtain ⟨i', hi', rfl⟩ := h
      obtain ⟨e0, he0, hcand, hmin⟩ := ih i' hi'
      refine ⟨e0, by simpa using he0, hcand, ?_⟩
      intro j e' hj hget
      cases j with
      | zero =>
        simp at hget
        subst hget
        simpa using hc
      | succ j' =>
        exact hmin j' e' (by omega) (by simpa using hget)

lemma selectExpectation_none {α : Type} [BEq α]
    (exps : List (Expectation α)) (args : List α)
    (h : selectExpectation exps args = none) :
    ∀ e ∈ exps, e.candidate args = false := by
  induction exps with
  | nil => intro e he; simp at he
  | cons e es ih =>
    by_cases hc : e.candidate args = true
    · simp [selectExpectation, hc] at h
    · intro e' he'
      simp [selectExpectation, hc] at h
      rcases List.mem_cons.mp he' with rfl | hmem
      · simpa using hc
      · exact ih h e' hmem

/-! ## Claims -/

/-- C1: for every integer `n` and string `s`, the real capability's
`DoSomething(n, s)` returns success (nil error) iff the decimal-string
representation of `n` equals `s`; and the only other possible result is
the failure whose message embeds both values in the source's format. -/
theorem DoSomething_success_iff (n : Int) (s : String) (out : Output) :
    ((NewDoer.DoSomething n s out).1 = none ↔ toString n = s) ∧
    ((NewDoer.DoSomething n s out).1 = none ∨
     (NewDoer.DoSomething n s out).1 =
       some ("error: " ++ s ++ " != " ++ toString n)) := by
  by_cases h : toString n = s <;>
    simp [NewDoer, doerImpl.DoSomething, h]

/-- C2: for every capability behavior `d`, the consumer built on the
call-recording instrumentation of `d` appends, on `Use()`, exactly one
call record, with exactly the arguments `(123, "Hello GoMock")`. -/
theorem Use_calls_once_fixed_args (d : Int → String → GoError)
    (log : CallLog) :
    ((NewUser (recording d)).Use log).2 = log ++ [(123, "Hello GoMock")] ∧
    ((NewUser (recording d)).Use log).1 = d 123 "Hello GoMock" :=
  ⟨rfl, rfl⟩

/-- C3: for every capability `d` (over any effect world), the consumer's
`Use()` returns exactly what `d.DoSomething(123, "Hello GoMock")`
returns — result and effects passed through unchanged. -/
theorem Use_passthrough {σ : Type} (d : Doer σ) (st : σ) :
    (NewUser d).Use st = d 123 "Hello GoMock" st := rfl

/-- C4: the real capability called with `(123, "124")` fails with message
exactly `"error: 124 != 123"` — label interpolated before count. -/
theorem DoSomething_123_124 :
    (NewDoer.DoSomething 123 "124" []).1 = some "error: 124 != 123" := by
  decide

/-- C6: the consumer holds a single capability reference and no other
state (a `User` is determined by its `Doer` field), the constructor
stores exactly the given capability, and `Use()` delegates to exactly
that instance. -/
theorem User_single_reference :
    (∀ (σ : Type) (d : Doer σ), (NewUser d).Doer = d) ∧
    (∀ (σ : Type) (u v : User σ), u.Doer = v.Doer → u = v) ∧
    (∀ (σ : Type) (d : Doer σ) (st : σ),
      (NewUser d).Use st = d 123 "Hello GoMock" st) := by
  refine ⟨fun σ d => rfl, fun σ u v h => ?_, fun σ d st => rfl⟩
  cases u; cases v; cases h; rfl

/-- Witness for C6 at a concrete capability: two users holding the same
capability are the same user. -/
theorem User_single_reference_witness :
    NewUser (recording fun _ _ => none) =
      User.mk (NewUser (recording fun _ _ => none)).Doer :=
  User_single_reference.2.1 CallLog _ _ rfl

/-- C7: the entry point is the body `mainWith` wired with the real
capability; for any wired capability the exit status is 0, and the error
message is printed (between the call's own output and `"end"`) iff the
outcome is a failure. -/
theorem main_wiring_and_output :
    mainRun = mainWith NewDoer.DoSomething ∧
    ∀ d : Doer Output,
      (mainWith d).2 = 0 ∧
      (∀ m, ((NewUser d).Use ["start"]).1 = some m →
        (mainWith d).1 = ((NewUser d).Use ["start"]).2 ++ [m, "end"]) ∧
      (((NewUser d).Use ["start"]).1 = none →
        (mainWith d).1 = ((NewUser d).Use ["start"]).2 ++ ["end"]) := by
  refine ⟨rfl, fun d => ⟨rfl, fun m h => ?_, fun h => ?_⟩⟩ <;>
    simp [mainWith, h]

/-- Witness for C7: with the real capability wired, the failure branch is
taken and prints the error message before `"end"`. -/
theorem main_wiring_and_output_witness :
    (mainWith NewDoer.DoSomething).1 =
      ((NewUser NewDoer.DoSomething).Use ["start"]).2 ++
        ["error: Hello GoMock != 123", "end"] :=
  (main_wiring_and_output.2 NewDoer.DoSomething).2.1
    "error: Hello GoMock != 123" (by decide)

/-- C8: as wired in the entry point, `Use()` always fails, with message
exactly `"error: Hello GoMock != 123"`, whatever was already printed —
the success path is unreachable. -/
theorem main_use_always_fails (out : Output) :
    ((NewUser NewDoer.DoSomething).Use out).1 =
      some "error: Hello GoMock != 123" := rfl

/-- C9: the custom type matcher built by `NewOfType t` matches a non-nil
value iff the string form of its dynamic type equals `t`, and its
`String()` is exactly `"is of type " ++ t`. -/
theorem ofType_matches_iff (t ty data : String) :
    ((NewOfType t).Matches (GoValue.val ty data) = some true ↔ ty = t) ∧
    (NewOfType t).String = "is of type " ++ t := by
  constructor
  · simp [NewOfType, ofType.Matches, reflectTypeOf]
  · rfl

/-- C10: `Matches` is not total — on the nil interface it panics
(modelled as `none`), and it is safe (returns a Boolean) exactly on
arguments carrying a non-nil dynamic type. -/
theorem ofType_matches_partial (t : String) :
    (NewOfType t).Matches GoValue.nil = none ∧
    ∀ ty data, ∃ b, (NewOfType t).Matches (GoValue.val ty data) = some b :=
  ⟨rfl, fun ty _ => ⟨ty == t, rfl⟩⟩

/-- C5: an incoming call selects the first declared, not-yet-exhausted,
order-eligible expectation whose positional matchers all succeed on the
call's arguments (and is dispatched to it); if no expectation matches,
the substitute fails immediately with a message naming the call and its
arguments. -/
theorem mock_matching_policy {α : Type} [BEq α] [ToString α]
    (method : String) (exps : List (Expectation α)) (args : List α) :
    (∀ i, selectExpectation exps args = some i →
      handleCall method exps args = Except.ok i ∧
      ∃ e, exps[i]? = some e ∧ e.candidate args = true ∧
        ∀ j e', j < i → exps[j]? = some e' → e'.candidate args = false) ∧
    (selectExpectation exps args = none →
      (∀ e ∈ exps, e.candidate args = false) ∧
      handleCall method exps args =
        Except.error (unexpectedCallMsg method args)) := by
  constructor
  · intro i hi
    exact ⟨by simp [handleCall, hi], selectExpectation_some exps args i hi⟩
  · intro h
    exact ⟨selectExpectation_none exps args h, by simp [handleCall, h]⟩

/-- Witness for C5 at concrete inputs: the call `[2]` is dispatched to
the second expectation (the first matching one), and the call `[5]`
matches nothing and fails with the descriptive message. -/
theorem mock_matching_policy_witness :
    handleCall "DoSomething" expsW [2] = Except.ok 1 ∧
    handleCall "DoSomething" expsW [5] =
      Except.error "unexpected call to DoSomething with arguments [5]" :=
  ⟨((mock_matching_policy "DoSomething" expsW [2]).1 1 (by decide)).1,
   ((mock_matching_policy "DoSomething" expsW [5]).2 (by decide)).2⟩
